import Mathlib

/-!
Verification development for `kicad-jlcpcb-fab-generator.py`.

The Python script is shallowly embedded as follows.

* Python dicts are association lists (`PyDict`) with first-match lookup
  (`dictGet`), update-in-place-or-append assignment (`dictSet`, mirroring
  dict insertion-order semantics) and key deletion (`dictRemove`).
* The filesystem is a map from path to `FileContent` plus a set of existing
  directories.  CSV files are modeled at parsed-row granularity: the `csv`
  module's text-level encoding/decoding is not re-implemented, every file the
  script reads is written row-structured (`FileContent.csv`) by the external
  tool model, and the script's own final output is a list of written lines
  (`FileContent.text`).
* The external `kicad-cli` and `zip` processes are opaque collaborators.  One
  invocation is described by a `CmdBehavior`: exit status, captured combined
  stdout/stderr, and the files the process wrote.  A whole run is driven by
  an oracle `Nat → CmdBehavior` indexed by the number of processes spawned so
  far; the `World.spawned` field logs every spawned command line.
* Python exceptions are the `PyExc` inductive.  `PyExc.scriptError` carries
  the script's own `ScriptError` class; the remaining constructors are the
  built-in exceptions the embedded code paths can raise (`KeyError`,
  `IndexError`, `StopIteration`, `FileNotFoundError`, `FileExistsError`).
  The `except ScriptError` clause of `generate_fab` catches exactly the
  `scriptError` constructor, matching the Python handler.
* `try/finally` is `pyTryFinally`: the finally block always runs on the state
  left by the body; if the finally block itself raises, its exception
  replaces the body's outcome (Python semantics).
* `csv.DictReader` is `dictReaderRows`: field names come from the first row,
  empty rows are skipped, short rows are padded (the `restval`/`restkey`
  padding is modeled with the empty string, which is observationally
  equivalent here because the padded value only ever flows into a Python
  truthiness test), extra cells beyond the header are dropped.
* `click` is kept at its boundary: a command callback that returns `None`
  exits 0 and one that returns an integer exits with that integer
  (standalone mode); `click.echo`/`click.style` become `ConsoleLine.plain` /
  `ConsoleLine.styled` entries of a console transcript.
-/

/-- `ScriptError` from the script: title, details, error code. -/
structure ScriptError where
  title : String
  details : String
  error_code : Int
deriving DecidableEq, Repr

/-- Python exceptions observable in the embedded code paths. -/
inductive PyExc where
  | scriptError (e : ScriptError)
  | keyError (key : String)
  | indexError
  | stopIteration
  | fileNotFoundError (name : String)
  | fileExistsError (name : String)
deriving DecidableEq, Repr

/-- Contents of a file in the modeled filesystem. -/
inductive FileContent where
  | csv (rows : List (List String))
  | text (lines : List String)
  | blob
deriving DecidableEq, Repr

/-- A Python dict as an insertion-ordered association list. -/
abbrev PyDict (α : Type) : Type := List (String × α)

/-- Dict lookup: first binding of the key, `none` when absent. -/
def dictGet {α : Type} : PyDict α → String → Option α
  | [], _ => none
  | (k, v) :: rest, key => if k = key then some v else dictGet rest key

/-- Dict assignment `d[key] = v`: update the existing binding in place,
or append a new one (Python insertion-order semantics). -/
def dictSet {α : Type} : PyDict α → String → α → PyDict α
  | [], key, v => [(key, v)]
  | (k, w) :: rest, key, v =>
      if k = key then (k, v) :: rest else (k, w) :: dictSet rest key v

/-- Dict deletion: drop every binding of the key. -/
def dictRemove {α : Type} : PyDict α → String → PyDict α
  | [], _ => []
  | (k, v) :: rest, key =>
      if k = key then dictRemove rest key else (k, v) :: dictRemove rest key

/-- One row of the raw placement export is a list of CSV fields; the fixup
table maps a reference to the `csv.DictReader` row parsed for it. -/
abbrev FixupDict : Type := PyDict (PyDict String)

/-- `ScriptExecutionContext` namedtuple from the script.  The five
configuration fields are immutable in the source (namedtuple); `pos_fixups`
holds the one mutable dict shared between steps. -/
structure ScriptExecutionContext where
  kicad_path : String
  output : String
  pcb : String
  schema : String
  project_base : String
  pos_fixups : FixupDict
deriving DecidableEq, Repr

/-- Observable behavior of a single external process invocation: exit
status, captured merged stdout/stderr, and the files the process wrote. -/
structure CmdBehavior where
  returncode : Int
  stdout : String
  writes : List (String × FileContent)
deriving DecidableEq, Repr

/-- The mutable world a step runs against: the shared execution context,
the filesystem (files and directories), and the log of spawned commands. -/
structure World where
  ctx : ScriptExecutionContext
  fs : PyDict FileContent
  dirs : List String
  spawned : List (List String)
deriving DecidableEq, Repr

/-- Apply the files written by an external process to the filesystem. -/
def applyWrites (writes : List (String × FileContent)) (fs : PyDict FileContent) :
    PyDict FileContent :=
  writes.foldl (fun acc kv => dictSet acc kv.1 kv.2) fs

/-- `run_command` from the script: spawn the process once, capture its
output; on non-zero exit raise `ScriptError` with the space-joined command
line as title, the captured output as details, and error code 2. -/
def run_command (beh : CmdBehavior) (command_args : List String) (w : World) :
    World × Except PyExc Unit :=
  let w1 : World :=
    { w with fs := applyWrites beh.writes w.fs, spawned := w.spawned ++ [command_args] }
  if beh.returncode ≠ 0 then
    (w1, .error (.scriptError
      ⟨"Error executing command " ++ String.intercalate " " command_args, beh.stdout, 2⟩))
  else
    (w1, .ok ())

/-- `os.remove`: delete the file, `FileNotFoundError` when it is absent. -/
def os_remove (name : String) (w : World) : World × Except PyExc Unit :=
  if (dictGet w.fs name).isSome then
    ({ w with fs := dictRemove w.fs name }, .ok ())
  else
    (w, .error (.fileNotFoundError name))

/-- `open(name)` for reading: the content, `FileNotFoundError` when absent. -/
def openRead (name : String) (w : World) : Except PyExc FileContent :=
  match dictGet w.fs name with
  | some c => .ok c
  | none => .error (.fileNotFoundError name)

/-- View a file as CSV rows.  Files read by the script are written
row-structured by the external tool model; the fallbacks for the other
content forms stand in for `csv.reader`'s text-level parsing, which is not
re-implemented. -/
def csvRows : FileContent → List (List String)
  | .csv rows => rows
  | .text lines => lines.map (fun l => [l])
  | .blob => []

/-- `try body finally fin`: the finally block always runs; if it raises,
its exception replaces the body's outcome. -/
def pyTryFinally {α : Type} (body : World → World × Except PyExc α)
    (fin : World → World × Except PyExc Unit) (w : World) : World × Except PyExc α :=
  let br := body w
  let fr := fin br.1
  match fr.2 with
  | .error e => (fr.1, .error e)
  | .ok _ => (fr.1, br.2)

/-- Python list indexing `l[i]` (`IndexError` out of range). -/
def pyIndex (l : List String) (i : Nat) : Except PyExc String :=
  match l.get? i with
  | some v => .ok v
  | none => .error .indexError

/-- Python list item assignment `l[i] = v` (`IndexError` out of range). -/
def pySetIndex (l : List String) (i : Nat) (v : String) : Except PyExc (List String) :=
  if i < l.length then .ok (l.set i v) else .error .indexError

/-- Python dict subscript `d[k]` (`KeyError` when the key is absent). -/
def pyDictIndex {α : Type} (d : PyDict α) (k : String) : Except PyExc α :=
  match dictGet d k with
  | some v => .ok v
  | none => .error (.keyError k)

/-- Exception-propagating sequencing (Python statement order). -/
def exBind {α β : Type} (x : Except PyExc α) (f : α → Except PyExc β) : Except PyExc β :=
  match x with
  | .error e => .error e
  | .ok v => f v

/-- The f-string `f'"{s}"'`: wrap in literal double quotes. -/
def pyQuote (s : String) : String := "\"" ++ s ++ "\""

/-- One row of `csv.DictReader` output: zip the header with the (padded)
row, later duplicate header names winning as in `dict(zip(...))`. -/
def dictReaderRow (hdr row : List String) : PyDict String :=
  (hdr.zip (row ++ List.replicate (hdr.length - row.length) "")).foldl
    (fun d kv => dictSet d kv.1 kv.2) []

/-- `csv.DictReader` over a whole file: field names from the first row,
empty rows skipped, one dict per remaining row. -/
def dictReaderRows : List (List String) → List (PyDict String)
  | [] => []
  | hdr :: rows => (rows.filter (fun r => !r.isEmpty)).map (dictReaderRow hdr)

/-- The fixup-loading loop of `load_pos_fixups`:
`ec.pos_fixups[fixup['Reference']] = fixup` for each parsed row.  Returns
the dict as mutated so far together with the first exception, if any
(mutations made before an exception persist, as in Python). -/
def loadFixupsFromRows (m : FixupDict) : List (PyDict String) → FixupDict × Option PyExc
  | [] => (m, none)
  | d :: rest =>
      match dictGet d "Reference" with
      | none => (m, some (.keyError "Reference"))
      | some ref => loadFixupsFromRows (dictSet m ref d) rest

/-- The per-row body of the `generate_pos` loop (source lines 130-137):
look the reference up in `ec.pos_fixups` (a dict subscript, so a missing
reference raises `KeyError`); when the row dict is truthy, overwrite field 5
with `fixup['PosRotAdjust'] or pos_line[5]`; then wrap fields 0, 1, 2 in
literal double quotes. -/
def processPosLine (pos_fixups : FixupDict) (line0 : List String) :
    Except PyExc (List String) :=
  exBind (pyIndex line0 0) fun ref =>
  exBind (pyDictIndex pos_fixups ref) fun fixup =>
  exBind (if fixup ≠ [] then
            exBind (pyDictIndex fixup "PosRotAdjust") fun adj =>
            exBind (if adj ≠ "" then .ok adj else pyIndex line0 5) fun newRot =>
            pySetIndex line0 5 newRot
          else .ok line0) fun line1 =>
  exBind (pyIndex line1 0) fun f0 =>
  exBind (pySetIndex line1 0 (pyQuote f0)) fun line2 =>
  exBind (pyIndex line2 1) fun f1 =>
  exBind (pySetIndex line2 1 (pyQuote f1)) fun line3 =>
  exBind (pyIndex line3 2) fun f2 =>
  pySetIndex line3 2 (pyQuote f2)

/-- The writing loop of `generate_pos`: process each data row and emit one
comma-joined line per row; on an exception, keep the lines written so far
(they are already in the output file) and report the exception. -/
def writePosLines (pos_fixups : FixupDict) : List (List String) → List String × Option PyExc
  | [] => ([], none)
  | row :: rest =>
      match processPosLine pos_fixups row with
      | .error e => ([], some e)
      | .ok line =>
          let r := writePosLines pos_fixups rest
          (String.intercalate "," line :: r.1, r.2)

/-- The fixed header line written by `generate_pos`. -/
def posHeaderLine : String :=
  String.intercalate "," ["Designator", "Val", "Package", "Mid X", "Mid Y", "Rotation", "Layer"]

/-- `fnmatch`-style glob matching with `*` wildcards only (the script's
patterns are `*.g*` and `*.drl`). -/
def fnmatch : List Char → List Char → Bool
  | [], [] => true
  | [], _ :: _ => false
  | '*' :: ps, [] => fnmatch ps []
  | '*' :: ps, c :: cs => fnmatch ps (c :: cs) || fnmatch ('*' :: ps) cs
  | _ :: _, [] => false
  | p :: ps, c :: cs => (p == c) && fnmatch ps cs
termination_by p s => (p.length, s.length)

/-- `glob.glob(f'{dir}/{pat}')` over the modeled filesystem: files directly
under `dir` whose base name matches the pattern; a leading `*` does not
match hidden files (Python glob). -/
def globFiles (fs : PyDict FileContent) (dir : String) (pat : String) : List String :=
  (fs.map Prod.fst).filter fun name =>
    name.startsWith (dir ++ "/") &&
    (let base := name.drop (dir ++ "/").length
     !(base.toList.contains '/') && !(base.startsWith ".") &&
       fnmatch pat.toList base.toList)

/-- Step `generate_gerbers`. -/
def generate_gerbers (oracle : Nat → CmdBehavior) (w : World) : World × Except PyExc Unit :=
  run_command (oracle w.spawned.length)
    [w.ctx.kicad_path,
     "pcb", "export", "gerbers",
     "-l", "F.Cu,F.Paste,F.Silkscreen,F.Mask,B.Cu,B.Paste,B.Silkscreen,B.Mask,Edge.Cuts",
     "--no-x2",
     "--subtract-soldermask",
     "-o", w.ctx.output,
     w.ctx.pcb] w

/-- Step `generate_drill`. -/
def generate_drill (oracle : Nat → CmdBehavior) (w : World) : World × Except PyExc Unit :=
  run_command (oracle w.spawned.length)
    [w.ctx.kicad_path,
     "pcb", "export", "drill",
     "--map-format", "gerberx2",
     "-o", w.ctx.output ++ "/",
     w.ctx.pcb] w

/-- Step `archive_pcb`. -/
def archive_pcb (oracle : Nat → CmdBehavior) (w : World) : World × Except PyExc Unit :=
  run_command (oracle w.spawned.length)
    (["zip",
      "-o", w.ctx.output ++ "/" ++ w.ctx.project_base ++ "-gerbers.zip"] ++
      globFiles w.fs w.ctx.output "*.g*" ++
      globFiles w.fs w.ctx.output "*.drl") w

/-- Step `generate_bom`. -/
def generate_bom (oracle : Nat → CmdBehavior) (w : World) : World × Except PyExc Unit :=
  run_command (oracle w.spawned.length)
    [w.ctx.kicad_path,
     "sch", "export", "bom",
     "--fields", "Value,Reference,Footprint,LCSC",
     "--group-by", "Value",
     "--labels", "Comment,Designator,Footprint,LCSC Part Number",
     "--ref-range-delimiter", "",
     "-o", w.ctx.output ++ "/" ++ w.ctx.project_base ++ "-bom.csv",
     w.ctx.schema] w

/-- Step `load_pos_fixups`: export the (Reference, PosRotAdjust) table to a
temporary CSV in the output directory, parse it into `ec.pos_fixups`, and
always delete the temporary file in the `finally` block. -/
def load_pos_fixups (oracle : Nat → CmdBehavior) (w : World) : World × Except PyExc Unit :=
  let pos_fixups_filename := w.ctx.output ++ "/pos-fixups.csv"
  pyTryFinally
    (fun w =>
      match run_command (oracle w.spawned.length)
        [w.ctx.kicad_path,
         "sch", "export", "bom",
         "--fields", "Reference,PosRotAdjust",
         "-o", pos_fixups_filename, w.ctx.schema] w with
      | (w1, .error e) => (w1, .error e)
      | (w1, .ok _) =>
          match openRead pos_fixups_filename w1 with
          | .error e => (w1, .error e)
          | .ok content =>
              let r := loadFixupsFromRows w1.ctx.pos_fixups (dictReaderRows (csvRows content))
              let w2 : World := { w1 with ctx := { w1.ctx with pos_fixups := r.1 } }
              match r.2 with
              | some e => (w2, .error e)
              | none => (w2, .ok ()))
    (os_remove pos_fixups_filename)
    w

/-- Step `generate_pos`: export the raw placement CSV to a temporary file,
discard its header row (`next`, raising `StopIteration` when the file is
empty), rewrite every remaining row through `processPosLine` into the final
`.pos` file behind the fixed header line, and always delete the temporary
file in the `finally` block. -/
def generate_pos (oracle : Nat → CmdBehavior) (w : World) : World × Except PyExc Unit :=
  let pre_fixup_pos_filename := w.ctx.output ++ "/pre-fixup-pos.pos"
  pyTryFinally
    (fun w =>
      match run_command (oracle w.spawned.length)
        [w.ctx.kicad_path,
         "pcb", "export", "pos",
         "--format", "csv",
         "--units", "mm",
         "--side", "front",
         "-o", pre_fixup_pos_filename,
         w.ctx.pcb] w with
      | (w1, .error e) => (w1, .error e)
      | (w1, .ok _) =>
          match openRead pre_fixup_pos_filename w1 with
          | .error e => (w1, .error e)
          | .ok content =>
              match csvRows content with
              | [] => (w1, .error .stopIteration)
              | _hdr :: rows =>
                  let r := writePosLines w1.ctx.pos_fixups rows
                  let posName := w1.ctx.output ++ "/" ++ w1.ctx.project_base ++ ".pos"
                  let w2 : World :=
                    { w1 with fs := dictSet w1.fs posName (.text (posHeaderLine :: r.1)) }
                  match r.2 with
                  | some e => (w2, .error e)
                  | none => (w2, .ok ()))
    (os_remove pre_fixup_pos_filename)
    w

/-- A pipeline step: the `__step_title` attached by `@script_step` and the
step function. -/
structure Step where
  title : String
  run : (Nat → CmdBehavior) → World → World × Except PyExc Unit

/-- The fixed step list passed to the progress bar in `generate_fab`
(source lines 181-187), in source order. -/
def fab_steps : List Step :=
  [⟨"Generate gerbers", generate_gerbers⟩,
   ⟨"Generate drill", generate_drill⟩,
   ⟨"Archive PCB fabrication outputs", archive_pcb⟩,
   ⟨"Generate BOM", generate_bom⟩,
   ⟨"Load pick-and-place fixup mappings", load_pos_fixups⟩,
   ⟨"Generate and fixup pick-and-place", generate_pos⟩]

/-- The `for step in steps: step(ec)` loop: run the steps in order, stop at
the first exception; also return the titles of the steps that executed. -/
def runSteps (oracle : Nat → CmdBehavior) :
    List Step → World → World × Except PyExc Unit × List String
  | [], w => (w, .ok (), [])
  | s :: rest, w =>
      match s.run oracle w with
      | (w1, .error e) => (w1, .error e, [s.title])
      | (w1, .ok _) =>
          let r := runSteps oracle rest w1
          (r.1, r.2.1, s.title :: r.2.2)

/-- A line of terminal output: `click.echo` of a plain string or of a
`click.style`-highlighted string. -/
inductive ConsoleLine where
  | plain (s : String)
  | styled (s : String)
deriving DecidableEq, Repr

/-- Command-line arguments after `click` parsing.  Options the user did not
pass arrive falsy (modeled as the empty string, matching the script's
`if not x:` defaulting checks); `output` carries its `click` default. -/
structure CliArgs where
  project : String
  schema : String
  pcb : String
  output : String
  force : Bool
  kicad_path : String
deriving DecidableEq, Repr

/-- Characters of the last `/`-separated component (accumulated reversed in
the first argument). -/
def lastComponent : List Char → List Char → List Char
  | acc, [] => acc.reverse
  | acc, c :: rest => if c = '/' then lastComponent [] rest else lastComponent (c :: acc) rest

/-- `os.path.basename`: the part of the path after its last `/`. -/
def basename (s : String) : String := ⟨lastComponent [] s.toList⟩

/-- `os.path.join` for the two-argument uses in the script: an absolute
second argument wins; otherwise the parts are joined with exactly one `/`. -/
def path_join (a b : String) : String :=
  if b.toList.head? = some '/' then b
  else if a = "" then b
  else if a.toList.getLast? = some '/' then a ++ b
  else a ++ "/" ++ b

/-- The probe list of `probe_kicad_path`. -/
def KicadProbeList : List String := ["/Applications/KiCad/KiCad.app/Contents/MacOS/kicad-cli"]

/-- `probe_kicad_path`: first probe path that is a file, else `kicad-cli`. -/
def probe_kicad_path (w : World) : String :=
  ((KicadProbeList.filter (fun p => (dictGet w.fs p).isSome)).head?).getD "kicad-cli"

/-- `shutil.rmtree`: remove the directory, everything under it, and any
file bound at its exact path. -/
def rmtree (dir : String) (w : World) : World :=
  { w with
    dirs := w.dirs.filter (fun d => !(d == dir) && !(d.startsWith (dir ++ "/"))),
    fs := w.fs.filter (fun p => !(p.1 == dir) && !(p.1.startsWith (dir ++ "/"))) }

/-- `os.makedirs` (no `exist_ok`): `FileExistsError` when present. -/
def makedirs (dir : String) (w : World) : World × Except PyExc Unit :=
  if w.dirs.contains dir then (w, .error (.fileExistsError dir))
  else ({ w with dirs := dir :: w.dirs }, .ok ())

/-- The body of `generate_fab`'s `try` block: argument defaulting, the
output-directory precondition, context construction, and the step loop.
Returns the final world, the console transcript so far, and the outcome. -/
def generate_fab_body (oracle : Nat → CmdBehavior) (args : CliArgs) (w0 : World) :
    World × List ConsoleLine × Except PyExc Unit :=
  let kicad_path := if args.kicad_path = "" then probe_kicad_path w0 else args.kicad_path
  let schema :=
    path_join args.project
      (if args.schema = "" then basename args.project ++ ".kicad_sch" else args.schema)
  let pcb :=
    path_join args.project
      (if args.pcb = "" then basename args.project ++ ".kicad_pcb" else args.pcb)
  if w0.dirs.contains args.output && !args.force then
    (w0, [], .error (.scriptError
      ⟨"\"" ++ args.output ++ "\" already exists.",
       "Use --fore to remove and re-create, or --output to specify a different path", 1⟩))
  else
    let w1 := if w0.dirs.contains args.output then rmtree args.output w0 else w0
    let project_base := basename args.project
    match makedirs args.output w1 with
    | (w2, .error e) => (w2, [], .error e)
    | (w2, .ok _) =>
        let console := [ConsoleLine.plain
          ("Using " ++ kicad_path ++ " to generate fabraction outputs for PCB " ++ pcb ++
           " and schema " ++ schema)]
        let w3 : World :=
          { w2 with ctx := ⟨kicad_path, args.output, pcb, schema, project_base, []⟩ }
        let r := runSteps oracle fab_steps w3
        (r.1, console, r.2.1)

/-- Result of the `click` command: final world, console transcript, and
either an uncaught exception or the process exit code (`click` standalone
mode exits with the callback's return value, 0 for `None`). -/
structure FabResult where
  world : World
  console : List ConsoleLine
  outcome : Except PyExc Int
deriving Repr

/-- `generate_fab`: run the body under `try`; `except ScriptError` prints
the styled title and the details and returns the error code; any other
exception propagates uncaught. -/
def generate_fab (oracle : Nat → CmdBehavior) (args : CliArgs) (w0 : World) : FabResult :=
  match generate_fab_body oracle args w0 with
  | (w, console, .ok _) => ⟨w, console ++ [.plain "Done."], .ok 0⟩
  | (w, console, .error (.scriptError se)) =>
      ⟨w, console ++ [.styled se.title, .plain se.details], .ok se.error_code⟩
  | (w, console, .error e) => ⟨w, console, .error e⟩

/-! ## Dictionary and filesystem lemmas -/

theorem dictGet_dictSet_self {α : Type} (d : PyDict α) (k : String) (v : α) :
    dictGet (dictSet d k v) k = some v := by
  induction d with
  | nil => simp [dictSet, dictGet]
  | cons p rest ih =>
      obtain ⟨pk, pv⟩ := p
      by_cases h : pk = k <;> simp [dictSet, dictGet, h, ih]

theorem dictGet_dictSet_ne {α : Type} (d : PyDict α) (k key : String) (v : α)
    (h : key ≠ k) : dictGet (dictSet d k v) key = dictGet d key := by
  induction d with
  | nil => simp [dictSet, dictGet, Ne.symm h]
  | cons p rest ih =>
      obtain ⟨pk, pv⟩ := p
      by_cases hpk : pk = k
      · subst hpk
        simp [dictSet, dictGet, Ne.symm h]
      · simp [dictSet, dictGet, hpk, ih]

theorem dictGet_dictRemove_self {α : Type} (d : PyDict α) (k : String) :
    dictGet (dictRemove d k) k = none := by
  induction d with
  | nil => simp [dictRemove, dictGet]
  | cons p rest ih =>
      obtain ⟨pk, pv⟩ := p
      by_cases h : pk = k <;> simp [dictRemove, dictGet, h, ih]

theorem dictGet_dictRemove_ne {α : Type} (d : PyDict α) (k key : String)
    (h : key ≠ k) : dictGet (dictRemove d k) key = dictGet d key := by
  induction d with
  | nil => simp [dictRemove]
  | cons p rest ih =>
      obtain ⟨pk, pv⟩ := p
      by_cases hpk : pk = k
      · subst hpk
        simp [dictRemove, dictGet, Ne.symm h, ih]
      · simp [dictRemove, dictGet, hpk, ih]

theorem dictGet_isSome_dictSet {α : Type} (d : PyDict α) (k key : String) (v : α)
    (h : (dictGet d key).isSome) : (dictGet (dictSet d k v) key).isSome := by
  by_cases hk : key = k
  · subst hk; simp [dictGet_dictSet_self]
  · rwa [dictGet_dictSet_ne d k key v hk]

theorem dictGet_applyWrites_isSome {writes : List (String × FileContent)}
    {fs : PyDict FileContent} {name : String}
    (h : (dictGet fs name).isSome) : (dictGet (applyWrites writes fs) name).isSome := by
  induction writes generalizing fs with
  | nil => simpa [applyWrites] using h
  | cons kv rest ih =>
      simpa [applyWrites] using ih (dictGet_isSome_dictSet fs kv.1 name kv.2 h)

theorem dictGet_applyWrites_isSome_of_mem {writes : List (String × FileContent)}
    {fs : PyDict FileContent} {name : String}
    (h : name ∈ writes.map Prod.fst) : (dictGet (applyWrites writes fs) name).isSome := by
  induction writes generalizing fs with
  | nil => simp at h
  | cons kv rest ih =>
      simp only [List.map_cons, List.mem_cons] at h
      rcases h with hh | hh
      · have : (dictGet (dictSet fs kv.1 kv.2) name).isSome := by
          rw [hh, dictGet_dictSet_self]; rfl
        simpa [applyWrites] using dictGet_applyWrites_isSome this
      · exact ih hh

theorem os_remove_fst_absent (name : String) (w : World) :
    dictGet ((os_remove name w).1).fs name = none := by
  by_cases h : (dictGet w.fs name).isSome
  · simp [os_remove, h, dictGet_dictRemove_self]
  · simp only [os_remove, h, if_false, Bool.false_eq_true]
    exact Option.not_isSome_iff_eq_none.mp h

theorem os_remove_fst_other (name key : String) (w : World) (h : key ≠ name) :
    dictGet ((os_remove name w).1).fs key = dictGet w.fs key := by
  by_cases hp : (dictGet w.fs name).isSome
  · simp [os_remove, hp, dictGet_dictRemove_ne _ _ _ h]
  · simp [os_remove, hp]

theorem os_remove_of_present (name : String) (w : World)
    (h : (dictGet w.fs name).isSome) :
    os_remove name w = ({ w with fs := dictRemove w.fs name }, .ok ()) := by
  simp [os_remove, h]

theorem pyTryFinally_fst {α : Type} (body : World → World × Except PyExc α)
    (fin : World → World × Except PyExc Unit) (w : World) :
    (pyTryFinally body fin w).1 = (fin (body w).1).1 := by
  cases h : (fin (body w).1).2 <;> simp [pyTryFinally, h]

theorem pyTryFinally_snd_of_fin_ok {α : Type} (body : World → World × Except PyExc α)
    (fin : World → World × Except PyExc Unit) (w : World)
    (h : (fin (body w).1).2 = .ok ()) :
    (pyTryFinally body fin w).2 = (body w).2 := by
  simp [pyTryFinally, h]

/-! ## Row-processing lemmas -/

theorem dictGet_ne_nil {α : Type} {d : PyDict α} {k : String} {v : α}
    (h : dictGet d k = some v) : d ≠ [] := by
  intro hnil
  subst hnil
  simp [dictGet] at h

/-- Evaluation of the `generate_pos` loop body on a well-formed seven-field
placement row whose reference has a fixup record carrying a `PosRotAdjust`
value. -/
theorem processPosLine_seven (pos_fixups : FixupDict) (f : PyDict String)
    (r0 r1 r2 x y rot layer adj : String)
    (hf : dictGet pos_fixups r0 = some f)
    (hadj : dictGet f "PosRotAdjust" = some adj) :
    processPosLine pos_fixups [r0, r1, r2, x, y, rot, layer] =
      .ok [pyQuote r0, pyQuote r1, pyQuote r2, x, y,
           if adj ≠ "" then adj else rot, layer] := by
  have hne : f ≠ [] := dictGet_ne_nil hadj
  by_cases hempty : adj = ""
  · simp [processPosLine, pyIndex, pyDictIndex, pySetIndex, exBind, hf, hadj, hne, hempty,
      List.get?, List.set]
  · simp [processPosLine, pyIndex, pyDictIndex, pySetIndex, exBind, hf, hadj, hne, hempty,
      List.get?, List.set]

/-! ## Claim C1 -/

/-- C1: the claim says a data row whose reference is absent from the fixups
map must not raise and must be written with its rotation unchanged.  The
code disagrees: the lookup at source line 130 is a dict subscript
(`ec.pos_fixups[pos_line[0]]`), so on the claim's own example row
`C2,100nF,0603,5.0,5.0,180,top` with an empty fixups map the loop body
raises `KeyError('C2')` instead of producing an output row. -/
theorem c1_missing_fixup_lookup_raises :
    processPosLine [] ["C2", "100nF", "0603", "5.0", "5.0", "180", "top"] =
      .error (.keyError "C2") := rfl

/-! ## Claim C3 -/

/-- C3: `run_command` spawns the named external process exactly once (the
spawn log grows by exactly the given argument list, so there is no retry);
on non-zero exit status it raises `ScriptError` whose title is
`"Error executing command "` followed by the space-joined arguments, whose
details are the captured merged output, and whose exit code is 2; on zero
exit status it returns success with no value. -/
theorem c3_run_command_contract (beh : CmdBehavior) (args : List String) (w : World) :
    ((run_command beh args w).1.spawned = w.spawned ++ [args]) ∧
    (beh.returncode ≠ 0 →
      (run_command beh args w).2 = .error (.scriptError
        ⟨"Error executing command " ++ String.intercalate " " args, beh.stdout, 2⟩)) ∧
    (beh.returncode = 0 → (run_command beh args w).2 = .ok ()) := by
  by_cases h : beh.returncode = 0 <;>
    refine ⟨?_, ?_, ?_⟩ <;> intros <;> simp_all [run_command]

/-- Witness for C3: a command exiting with status 3 that wrote `boom` to
its combined output yields a `ScriptError` with exit code 2 and details
`boom`, and exactly one process was spawned. -/
theorem c3_run_command_contract_witness :
    ((3 : Int) ≠ 0) ∧
    ((run_command ⟨3, "boom", []⟩ ["badcmd", "arg"]
        ⟨⟨"", "", "", "", "", []⟩, [], [], []⟩).1.spawned = [["badcmd", "arg"]]) ∧
    ((run_command ⟨3, "boom", []⟩ ["badcmd", "arg"]
        ⟨⟨"", "", "", "", "", []⟩, [], [], []⟩).2 =
      .error (.scriptError ⟨"Error executing command badcmd arg", "boom", 2⟩)) := by
  have h := c3_run_command_contract ⟨3, "boom", []⟩ ["badcmd", "arg"]
    ⟨⟨"", "", "", "", "", []⟩, [], [], []⟩
  exact ⟨by decide, h.1, h.2.1 (by decide)⟩

/-! ## Claim C4 -/

/-- C4: for a placement row with a matching fixup record, a non-empty
`PosRotAdjust` value replaces the rotation field (field 5) of the output
row, while an empty `PosRotAdjust` leaves the original rotation unchanged;
in both cases the row is otherwise passed through (with the first three
fields quoted by the later statements of the loop body). -/
theorem c4_fixup_rotation_override (pos_fixups : FixupDict) (f : PyDict String)
    (r0 r1 r2 x y rot layer adj : String)
    (hf : dictGet pos_fixups r0 = some f)
    (hadj : dictGet f "PosRotAdjust" = some adj) :
    (adj ≠ "" →
      processPosLine pos_fixups [r0, r1, r2, x, y, rot, layer] =
        .ok [pyQuote r0, pyQuote r1, pyQuote r2, x, y, adj, layer]) ∧
    (adj = "" →
      processPosLine pos_fixups [r0, r1, r2, x, y, rot, layer] =
        .ok [pyQuote r0, pyQuote r1, pyQuote r2, x, y, rot, layer]) := by
  constructor
  · intro hne
    rw [processPosLine_seven pos_fixups f r0 r1 r2 x y rot layer adj hf hadj]
    simp [hne]
  · intro he
    rw [processPosLine_seven pos_fixups f r0 r1 r2 x y rot layer adj hf hadj]
    simp [he]

/-- Witness for C4: with fixup `R1 ↦ PosRotAdjust "90"` the row
`R1,10k,0805,12.5,8.2,0,top` gets rotation `90`; with fixup
`C2 ↦ PosRotAdjust ""` the row `C2,100nF,0603,5.0,5.0,180,top` keeps
rotation `180`. -/
theorem c4_fixup_rotation_override_witness :
    (processPosLine [("R1", [("Reference", "R1"), ("PosRotAdjust", "90")])]
        ["R1", "10k", "0805", "12.5", "8.2", "0", "top"] =
      .ok ["\"R1\"", "\"10k\"", "\"0805\"", "12.5", "8.2", "90", "top"]) ∧
    (processPosLine [("C2", [("Reference", "C2"), ("PosRotAdjust", "")])]
        ["C2", "100nF", "0603", "5.0", "5.0", "180", "top"] =
      .ok ["\"C2\"", "\"100nF\"", "\"0603\"", "5.0", "5.0", "180", "top"]) := by
  constructor
  · have h := (c4_fixup_rotation_override
      [("R1", [("Reference", "R1"), ("PosRotAdjust", "90")])]
      [("Reference", "R1"), ("PosRotAdjust", "90")]
      "R1" "10k" "0805" "12.5" "8.2" "0" "top" "90" (by rfl) (by rfl)).1 (by decide)
    simpa [pyQuote] using h
  · have h := (c4_fixup_rotation_override
      [("C2", [("Reference", "C2"), ("PosRotAdjust", "")])]
      [("Reference", "C2"), ("PosRotAdjust", "")]
      "C2" "100nF" "0603" "5.0" "5.0" "180" "top" "" (by rfl) (by rfl)).2 (by rfl)
    simpa [pyQuote] using h

/-! ## Claim C2 -/

/-- Evaluation of `run_command` on a failing command. -/
theorem run_command_fail (beh : CmdBehavior) (args : List String) (w : World)
    (h : beh.returncode ≠ 0) :
    run_command beh args w =
      ({ w with fs := applyWrites beh.writes w.fs, spawned := w.spawned ++ [args] },
       .error (.scriptError
         ⟨"Error executing command " ++ String.intercalate " " args, beh.stdout, 2⟩)) := by
  simp [run_command, h]

/-- A world at the start of the fixup-loading step: empty output directory,
nothing spawned yet. -/
def c2World : World := ⟨⟨"kicad-cli", "out", "p.kicad_pcb", "p.kicad_sch", "p", []⟩, [], [], []⟩

/-- An external tool that fails (exit status 1, output `boom`) without
creating its output file. -/
def c2FailNoFileOracle : Nat → CmdBehavior := fun _ => ⟨1, "boom", []⟩

/-- Counterexample to C2 as stated: when the external tool invocation fails
without having created the temporary file, the unconditional `os.remove` in
the `finally` block raises `FileNotFoundError`, and that exception — not
the step's original `ScriptError` — propagates to the caller. -/
theorem c2_counterexample :
    (load_pos_fixups c2FailNoFileOracle c2World).2 =
      .error (.fileNotFoundError "out/pos-fixups.csv") ∧
    (load_pos_fixups c2FailNoFileOracle c2World).2 ≠
      .error (.scriptError
        ⟨"Error executing command kicad-cli sch export bom --fields Reference,PosRotAdjust -o out/pos-fixups.csv p.kicad_sch",
         "boom", 2⟩) := by
  refine ⟨rfl, ?_⟩
  intro h
  rw [show (load_pos_fixups c2FailNoFileOracle c2World).2 =
        .error (.fileNotFoundError "out/pos-fixups.csv") from rfl] at h
  simp at h

/-- C2 (amended): after either temporary-file-owning step returns, its
temporary file (`pos-fixups.csv` for the loader, `pre-fixup-pos.pos` for
the reconciler) is absent from the filesystem on every exit path; and when
the external tool invocation fails *and the tool had created the temporary
file*, the cleanup succeeds and the step's original `ScriptError` still
propagates to the caller.  (When the tool fails without creating the file,
the cleanup's `FileNotFoundError` propagates instead — see the
counterexample.) -/
theorem c2_temp_file_lifecycle_amended (oracle : Nat → CmdBehavior) (w : World) :
    (dictGet ((load_pos_fixups oracle w).1).fs (w.ctx.output ++ "/pos-fixups.csv") = none) ∧
    (dictGet ((generate_pos oracle w).1).fs (w.ctx.output ++ "/pre-fixup-pos.pos") = none) ∧
    ((oracle w.spawned.length).returncode ≠ 0 →
      (w.ctx.output ++ "/pos-fixups.csv") ∈ (oracle w.spawned.length).writes.map Prod.fst →
      (load_pos_fixups oracle w).2 = .error (.scriptError
        ⟨"Error executing command " ++ String.intercalate " "
          [w.ctx.kicad_path, "sch", "export", "bom", "--fields", "Reference,PosRotAdjust",
           "-o", w.ctx.output ++ "/pos-fixups.csv", w.ctx.schema],
         (oracle w.spawned.length).stdout, 2⟩)) ∧
    ((oracle w.spawned.length).returncode ≠ 0 →
      (w.ctx.output ++ "/pre-fixup-pos.pos") ∈ (oracle w.spawned.length).writes.map Prod.fst →
      (generate_pos oracle w).2 = .error (.scriptError
        ⟨"Error executing command " ++ String.intercalate " "
          [w.ctx.kicad_path, "pcb", "export", "pos", "--format", "csv", "--units", "mm",
           "--side", "front", "-o", w.ctx.output ++ "/pre-fixup-pos.pos", w.ctx.pcb],
         (oracle w.spawned.length).stdout, 2⟩)) := by
  refine ⟨?_, ?_, ?_, ?_⟩
  · simp only [load_pos_fixups]
    rw [pyTryFinally_fst]
    exact os_remove_fst_absent _ _
  · simp only [generate_pos]
    rw [pyTryFinally_fst]
    exact os_remove_fst_absent _ _
  · intro hrc hmem
    have hrun := run_command_fail (oracle w.spawned.length)
      [w.ctx.kicad_path, "sch", "export", "bom", "--fields", "Reference,PosRotAdjust",
       "-o", w.ctx.output ++ "/pos-fixups.csv", w.ctx.schema] w hrc
    have hpresent : (dictGet (applyWrites (oracle w.spawned.length).writes w.fs)
        (w.ctx.output ++ "/pos-fixups.csv")).isSome :=
      dictGet_applyWrites_isSome_of_mem hmem
    simp only [load_pos_fixups]
    rw [pyTryFinally_snd_of_fin_ok]
    · simp only [hrun]
    · simp only [hrun]
      simp [os_remove, hpresent]
  · intro hrc hmem
    have hrun := run_command_fail (oracle w.spawned.length)
      [w.ctx.kicad_path, "pcb", "export", "pos", "--format", "csv", "--units", "mm",
       "--side", "front", "-o", w.ctx.output ++ "/pre-fixup-pos.pos", w.ctx.pcb] w hrc
    have hpresent : (dictGet (applyWrites (oracle w.spawned.length).writes w.fs)
        (w.ctx.output ++ "/pre-fixup-pos.pos")).isSome :=
      dictGet_applyWrites_isSome_of_mem hmem
    simp only [generate_pos]
    rw [pyTryFinally_snd_of_fin_ok]
    · simp only [hrun]
    · simp only [hrun]
      simp [os_remove, hpresent]

/-- An external tool that fails (exit status 1) after creating both
temporary files. -/
def c2FailWithFileOracle : Nat → CmdBehavior := fun _ =>
  ⟨1, "boom", [("out/pos-fixups.csv", .csv []), ("out/pre-fixup-pos.pos", .csv [])]⟩

/-- Witness for the amended C2: a failing tool that did create the
temporary files — both files are absent after the steps return and the
original `ScriptError` propagates. -/
theorem c2_temp_file_lifecycle_amended_witness :
    ((1 : Int) ≠ 0) ∧
    ("out/pos-fixups.csv" ∈
      (c2FailWithFileOracle 0).writes.map Prod.fst) ∧
    (dictGet ((load_pos_fixups c2FailWithFileOracle c2World).1).fs "out/pos-fixups.csv" = none) ∧
    (dictGet ((generate_pos c2FailWithFileOracle c2World).1).fs "out/pre-fixup-pos.pos" = none) ∧
    ((load_pos_fixups c2FailWithFileOracle c2World).2 = .error (.scriptError
      ⟨"Error executing command kicad-cli sch export bom --fields Reference,PosRotAdjust -o out/pos-fixups.csv p.kicad_sch",
       "boom", 2⟩)) ∧
    ((generate_pos c2FailWithFileOracle c2World).2 = .error (.scriptError
      ⟨"Error executing command kicad-cli pcb export pos --format csv --units mm --side front -o out/pre-fixup-pos.pos p.kicad_pcb",
       "boom", 2⟩)) := by
  have h := c2_temp_file_lifecycle_amended c2FailWithFileOracle c2World
  refine ⟨by decide, by simp [c2FailWithFileOracle], h.1, h.2.1, ?_, ?_⟩
  · simpa using h.2.2.1 (by decide) (by simp [c2FailWithFileOracle, c2World])
  · simpa using h.2.2.2 (by decide) (by simp [c2FailWithFileOracle, c2World])

/-! ## Claim C5 -/

/-- Evaluation of `run_command` on a succeeding command. -/
theorem run_command_ok (beh : CmdBehavior) (args : List String) (w : World)
    (h : beh.returncode = 0) :
    run_command beh args w =
      ({ w with fs := applyWrites beh.writes w.fs, spawned := w.spawned ++ [args] },
       .ok ()) := by
  simp [run_command, h]

/-- Full evaluation of `generate_pos` when the export succeeds, the
temporary file holds a header row plus data rows, and every data row
processes without an exception. -/
theorem generate_pos_eval_ok (oracle : Nat → CmdBehavior) (w : World)
    (hdr : List String) (rows : List (List String)) (lines : List String)
    (hrc : (oracle w.spawned.length).returncode = 0)
    (hread : dictGet (applyWrites (oracle w.spawned.length).writes w.fs)
        (w.ctx.output ++ "/pre-fixup-pos.pos") = some (.csv (hdr :: rows)))
    (hproc : writePosLines w.ctx.pos_fixups rows = (lines, none)) :
    generate_pos oracle w =
      ({ w with
          fs := dictRemove
            (dictSet (applyWrites (oracle w.spawned.length).writes w.fs)
              (w.ctx.output ++ "/" ++ w.ctx.project_base ++ ".pos")
              (.text (posHeaderLine :: lines)))
            (w.ctx.output ++ "/pre-fixup-pos.pos"),
          spawned := w.spawned ++ [[w.ctx.kicad_path, "pcb", "export", "pos",
            "--format", "csv", "--units", "mm", "--side", "front",
            "-o", w.ctx.output ++ "/pre-fixup-pos.pos", w.ctx.pcb]] },
       .ok ()) := by
  have hrun := run_command_ok (oracle w.spawned.length)
    [w.ctx.kicad_path, "pcb", "export", "pos", "--format", "csv", "--units", "mm",
     "--side", "front", "-o", w.ctx.output ++ "/pre-fixup-pos.pos", w.ctx.pcb] w hrc
  have hps : (dictGet
      (dictSet (applyWrites (oracle w.spawned.length).writes w.fs)
        (w.ctx.output ++ "/" ++ w.ctx.project_base ++ ".pos")
        (.text (posHeaderLine :: lines)))
      (w.ctx.output ++ "/pre-fixup-pos.pos")).isSome := by
    apply dictGet_isSome_dictSet
    rw [hread]
    rfl
  simp only [generate_pos, pyTryFinally, hrun, openRead, hread, csvRows, hproc,
    os_remove, hps, if_true]

/-- C5: when the placement export succeeds and every data row processes
without an exception, the final placement file written by `generate_pos`
consists of the exact header line
`Designator,Val,Package,Mid X,Mid Y,Rotation,Layer` followed by one
comma-joined line per data row of the raw export (its header row
discarded); and on a seven-field row with a matching fixup record, the
processed row wraps the reference, value and package fields in literal
double quotes, leaves the coordinate, rotation and layer fields unquoted,
and carries the (possibly overridden) rotation. -/
theorem c5_pos_output_format (oracle : Nat → CmdBehavior) (w : World)
    (hdr : List String) (rows : List (List String)) (lines : List String)
    (hrc : (oracle w.spawned.length).returncode = 0)
    (hread : dictGet (applyWrites (oracle w.spawned.length).writes w.fs)
        (w.ctx.output ++ "/pre-fixup-pos.pos") = some (.csv (hdr :: rows)))
    (hproc : writePosLines w.ctx.pos_fixups rows = (lines, none))
    (hne : w.ctx.output ++ "/" ++ w.ctx.project_base ++ ".pos" ≠
           w.ctx.output ++ "/pre-fixup-pos.pos") :
    ((generate_pos oracle w).2 = .ok ()) ∧
    (dictGet ((generate_pos oracle w).1).fs
        (w.ctx.output ++ "/" ++ w.ctx.project_base ++ ".pos") =
      some (.text (posHeaderLine :: lines))) ∧
    (posHeaderLine = "Designator,Val,Package,Mid X,Mid Y,Rotation,Layer") ∧
    (∀ (fx : FixupDict) (f : PyDict String) (r0 r1 r2 x y rot layer adj : String),
      dictGet fx r0 = some f → dictGet f "PosRotAdjust" = some adj →
      processPosLine fx [r0, r1, r2, x, y, rot, layer] =
        .ok ["\"" ++ r0 ++ "\"", "\"" ++ r1 ++ "\"", "\"" ++ r2 ++ "\"", x, y,
             if adj ≠ "" then adj else rot, layer]) := by
  have heval := generate_pos_eval_ok oracle w hdr rows lines hrc hread hproc
  refine ⟨by rw [heval], ?_, rfl, ?_⟩
  · rw [heval]
    simp only []
    rw [dictGet_dictRemove_ne _ _ _ hne, dictGet_dictSet_self]
  · intro fx f r0 r1 r2 x y rot layer adj hf hadj
    have h := processPosLine_seven fx f r0 r1 r2 x y rot layer adj hf hadj
    simpa [pyQuote] using h

/-- World for the C5 witness: fixup table `R1 ↦ PosRotAdjust "90"` already
loaded, project base `myboard`, output directory `fab`. -/
def c5World : World :=
  ⟨⟨"kicad-cli", "fab", "b.kicad_pcb", "b.kicad_sch", "myboard",
    [("R1", [("Reference", "R1"), ("PosRotAdjust", "90")])]⟩, [], ["fab"], []⟩

/-- Tool behavior for the C5 witness: the position export succeeds and
writes a header row plus the claim's example row `R1,10k,0805,12.5,8.2,0,top`. -/
def c5Oracle : Nat → CmdBehavior := fun _ =>
  ⟨0, "", [("fab/pre-fixup-pos.pos",
    .csv [["Ref", "Val", "Package", "PosX", "PosY", "Rot", "Side"],
          ["R1", "10k", "0805", "12.5", "8.2", "0", "top"]])]⟩

/-- Witness for C5: the claim's example — fixup `R1 ↦ "90"`, raw row
`R1,10k,0805,12.5,8.2,0,top` — produces the final file with the exact
header line and the output row `"R1","10k","0805",12.5,8.2,90,top`. -/
theorem c5_pos_output_format_witness :
    ((generate_pos c5Oracle c5World).2 = .ok ()) ∧
    (dictGet ((generate_pos c5Oracle c5World).1).fs "fab/myboard.pos" =
      some (.text ["Designator,Val,Package,Mid X,Mid Y,Rotation,Layer",
                   "\"R1\",\"10k\",\"0805\",12.5,8.2,90,top"])) := by
  have h := c5_pos_output_format c5Oracle c5World
    ["Ref", "Val", "Package", "PosX", "PosY", "Rot", "Side"]
    [["R1", "10k", "0805", "12.5", "8.2", "0", "top"]]
    ["\"R1\",\"10k\",\"0805\",12.5,8.2,90,top"]
    (by rfl) (by rfl) (by rfl) (by decide)
  exact ⟨h.1, h.2.1⟩

/-! ## Claims C6 and C8 -/

theorem runSteps_cons_error (oracle : Nat → CmdBehavior) (s : Step) (rest : List Step)
    (w w2 : World) (e : PyExc) (h : s.run oracle w = (w2, .error e)) :
    runSteps oracle (s :: rest) w = (w2, .error e, [s.title]) := by
  simp [runSteps, h]

theorem runSteps_cons_ok (oracle : Nat → CmdBehavior) (s : Step) (rest : List Step)
    (w w2 : World) (h : s.run oracle w = (w2, .ok ())) :
    runSteps oracle (s :: rest) w =
      ((runSteps oracle rest w2).1, (runSteps oracle rest w2).2.1,
       s.title :: (runSteps oracle rest w2).2.2) := by
  simp [runSteps, h]

theorem runSteps_single (oracle : Nat → CmdBehavior) (s : Step) (w : World) :
    runSteps oracle [s] w = ((s.run oracle w).1, (s.run oracle w).2, [s.title]) := by
  cases hr : s.run oracle w with
  | mk w1 r => cases r <;> simp [runSteps, hr]

theorem runSteps_append_ok (oracle : Nat → CmdBehavior) (l1 l2 : List Step)
    (w w1 : World) (ts : List String)
    (h : runSteps oracle l1 w = (w1, .ok (), ts)) :
    runSteps oracle (l1 ++ l2) w =
      ((runSteps oracle l2 w1).1, (runSteps oracle l2 w1).2.1,
       ts ++ (runSteps oracle l2 w1).2.2) := by
  induction l1 generalizing w ts with
  | nil =>
      simp only [runSteps, Prod.mk.injEq] at h
      obtain ⟨rfl, -, rfl⟩ := h
      simp
  | cons s rest ih =>
      cases hr : s.run oracle w with
      | mk w2 r =>
          cases r with
          | error e =>
              rw [runSteps_cons_error oracle s rest w w2 e hr] at h
              simp at h
          | ok u =>
              cases u
              rw [runSteps_cons_ok oracle s rest w w2 hr] at h
              simp only [Prod.mk.injEq] at h
              obtain ⟨h1, h2, h3⟩ := h
              have hrest : runSteps oracle rest w2 =
                  (w1, .ok (), (runSteps oracle rest w2).2.2) := by
                rw [← h1, ← h2]
              rw [List.cons_append,
                  runSteps_cons_ok oracle s (rest ++ l2) w w2 hr,
                  ih w2 (runSteps oracle rest w2).2.2 hrest, ← h3]
              simp

/-- C6: if all pipeline steps before position `k` succeed and the step at
position `k` fails, the whole step loop stops there: the executed-step
trace is exactly the titles of steps `0..k`, later steps never run, and the
loop's result is exactly the failing step's error. -/
theorem c6_first_failure_stops (oracle : Nat → CmdBehavior) (k : Nat) (s : Step)
    (w w1 w2 : World) (ts : List String) (e : PyExc)
    (hk : k < fab_steps.length)
    (hs : fab_steps.get ⟨k, hk⟩ = s)
    (hpre : runSteps oracle (fab_steps.take k) w = (w1, .ok (), ts))
    (hfail : s.run oracle w1 = (w2, .error e)) :
    runSteps oracle fab_steps w = (w2, .error e, ts ++ [s.title]) := by
  subst hs
  have hsplit : fab_steps =
      fab_steps.take k ++ fab_steps.get ⟨k, hk⟩ :: fab_steps.drop (k + 1) := by
    rw [List.get_eq_getElem, ← List.drop_eq_getElem_cons hk, List.take_append_drop]
  conv_lhs => rw [hsplit]
  rw [runSteps_append_ok oracle _ _ w w1 ts hpre,
      runSteps_cons_error oracle _ _ w1 w2 e hfail]

/-- Oracle for the C6 witness: the second spawned command (drill export)
fails with output `drill boom`; every other command succeeds. -/
def c6Oracle : Nat → CmdBehavior := fun n =>
  if n = 1 then ⟨1, "drill boom", []⟩ else ⟨0, "", []⟩

/-- World for the C6 witness. -/
def c6World : World :=
  ⟨⟨"kicad-cli", "fab", "b.kicad_pcb", "b.kicad_sch", "b", []⟩, [], ["fab"], []⟩

/-- Witness for C6: with the drill step (position 1) failing, only the
first two steps execute and the pipeline's result is the drill step's
`ScriptError`. -/
theorem c6_first_failure_stops_witness :
    runSteps c6Oracle fab_steps c6World =
      ((generate_drill c6Oracle (runSteps c6Oracle (fab_steps.take 1) c6World).1).1,
       .error (.scriptError
         ⟨"Error executing command kicad-cli pcb export drill --map-format gerberx2 -o fab/ b.kicad_pcb",
          "drill boom", 2⟩),
       ["Generate gerbers", "Generate drill"]) := by
  have h := c6_first_failure_stops c6Oracle 1 ⟨"Generate drill", generate_drill⟩
    c6World (runSteps c6Oracle (fab_steps.take 1) c6World).1
    (generate_drill c6Oracle (runSteps c6Oracle (fab_steps.take 1) c6World).1).1
    ["Generate gerbers"]
    (.scriptError
      ⟨"Error executing command kicad-cli pcb export drill --map-format gerberx2 -o fab/ b.kicad_pcb",
       "drill boom", 2⟩)
    (by decide) (by rfl) (by rfl) (by rfl)
  exact h

/-- C8: the pipeline is the fixed six-step list in source order — gerbers,
drill, archive, BOM, fixup-table load, placement generation — with the
fixup-loading step at position 4 strictly before the position-reconciling
step at position 5; consequently, whenever the first five steps succeed,
the whole pipeline is the first five steps followed by `generate_pos`
running on the state those five steps produced (so the reconciler consults
the fixups map as populated by the loader). -/
theorem c8_fixed_step_order :
    (fab_steps.map Step.title =
      ["Generate gerbers", "Generate drill", "Archive PCB fabrication outputs",
       "Generate BOM", "Load pick-and-place fixup mappings",
       "Generate and fixup pick-and-place"]) ∧
    (fab_steps.length = 6) ∧
    (fab_steps.get? 4 = some ⟨"Load pick-and-place fixup mappings", load_pos_fixups⟩) ∧
    (fab_steps.get? 5 = some ⟨"Generate and fixup pick-and-place", generate_pos⟩) ∧
    (∀ (oracle : Nat → CmdBehavior) (w w5 : World) (ts : List String),
      runSteps oracle (fab_steps.take 5) w = (w5, .ok (), ts) →
      runSteps oracle fab_steps w =
        ((generate_pos oracle w5).1, (generate_pos oracle w5).2,
         ts ++ ["Generate and fixup pick-and-place"])) := by
  refine ⟨rfl, rfl, rfl, rfl, ?_⟩
  intro oracle w w5 ts h
  have hsplit : fab_steps =
      fab_steps.take 5 ++ [⟨"Generate and fixup pick-and-place", generate_pos⟩] := rfl
  conv_lhs => rw [hsplit]
  rw [runSteps_append_ok oracle _ _ w w5 ts h, runSteps_single]

/-- Oracle for the C8 witness: every command succeeds; the fixup export
(the fifth spawned command) writes its header-only CSV. -/
def c8Oracle : Nat → CmdBehavior := fun n =>
  if n = 4 then ⟨0, "", [("fab/pos-fixups.csv", .csv [["Reference", "PosRotAdjust"]])]⟩
  else ⟨0, "", []⟩

/-- World for the C8 witness. -/
def c8World : World :=
  ⟨⟨"kicad-cli", "fab", "b.kicad_pcb", "b.kicad_sch", "b", []⟩, [], ["fab"], []⟩

/-- Witness for C8: with the first five steps succeeding, the full pipeline
equals those five steps followed by `generate_pos` on their final state. -/
theorem c8_fixed_step_order_witness :
    runSteps c8Oracle fab_steps c8World =
      ((generate_pos c8Oracle (runSteps c8Oracle (fab_steps.take 5) c8World).1).1,
       (generate_pos c8Oracle (runSteps c8Oracle (fab_steps.take 5) c8World).1).2,
       ["Generate gerbers", "Generate drill", "Archive PCB fabrication outputs",
        "Generate BOM", "Load pick-and-place fixup mappings",
        "Generate and fixup pick-and-place"]) := by
  have h := c8_fixed_step_order.2.2.2.2 c8Oracle c8World
    (runSteps c8Oracle (fab_steps.take 5) c8World).1
    ["Generate gerbers", "Generate drill", "Archive PCB fabrication outputs",
     "Generate BOM", "Load pick-and-place fixup mappings"]
    (by rfl)
  exact h

/-! ## Claim C9 -/

/-- The five immutable configuration fields of the execution context. -/
def configOf (w : World) : String × String × String × String × String :=
  (w.ctx.kicad_path, w.ctx.output, w.ctx.pcb, w.ctx.schema, w.ctx.project_base)

theorem run_command_configOf (beh : CmdBehavior) (args : List String) (w : World) :
    configOf ((run_command beh args w).1) = configOf w := by
  by_cases h : beh.returncode = 0 <;> simp [run_command, h, configOf]

theorem os_remove_configOf (name : String) (w : World) :
    configOf ((os_remove name w).1) = configOf w := by
  by_cases h : (dictGet w.fs name).isSome <;> simp [os_remove, h, configOf]

theorem load_pos_fixups_configOf (oracle : Nat → CmdBehavior) (w : World) :
    configOf ((load_pos_fixups oracle w).1) = configOf w := by
  simp only [load_pos_fixups]
  rw [pyTryFinally_fst, os_remove_configOf]
  split
  next w1 e heq =>
    have hc := run_command_configOf (oracle w.spawned.length)
      [w.ctx.kicad_path, "sch", "export", "bom", "--fields", "Reference,PosRotAdjust",
       "-o", w.ctx.output ++ "/pos-fixups.csv", w.ctx.schema] w
    rw [heq] at hc
    simpa using hc
  next w1 u heq =>
    have h1 : configOf w1 = configOf w := by
      have hc := run_command_configOf (oracle w.spawned.length)
        [w.ctx.kicad_path, "sch", "export", "bom", "--fields", "Reference,PosRotAdjust",
         "-o", w.ctx.output ++ "/pos-fixups.csv", w.ctx.schema] w
      rw [heq] at hc
      simpa using hc
    split
    next e heq2 => simpa using h1
    next content heq2 =>
      split <;> simpa [configOf, Prod.ext_iff] using h1

theorem generate_pos_configOf (oracle : Nat → CmdBehavior) (w : World) :
    configOf ((generate_pos oracle w).1) = configOf w := by
  simp only [generate_pos]
  rw [pyTryFinally_fst, os_remove_configOf]
  split
  next w1 e heq =>
    have hc := run_command_configOf (oracle w.spawned.length)
      [w.ctx.kicad_path, "pcb", "export", "pos", "--format", "csv", "--units", "mm",
       "--side", "front", "-o", w.ctx.output ++ "/pre-fixup-pos.pos", w.ctx.pcb] w
    rw [heq] at hc
    simpa using hc
  next w1 u heq =>
    have h1 : configOf w1 = configOf w := by
      have hc := run_command_configOf (oracle w.spawned.length)
        [w.ctx.kicad_path, "pcb", "export", "pos", "--format", "csv", "--units", "mm",
         "--side", "front", "-o", w.ctx.output ++ "/pre-fixup-pos.pos", w.ctx.pcb] w
      rw [heq] at hc
      simpa using hc
    split
    next e heq2 => simpa using h1
    next content heq2 =>
      split
      next heq3 => simpa using h1
      next hdr rows heq3 =>
        split <;> simpa [configOf, Prod.ext_iff] using h1

/-- C9: every step of the pipeline leaves the execution context's five
configuration fields (tool path, output directory, pcb file path, schema
file path, project base name) unchanged; the fixups dict is the only part
of the shared context a step may mutate. -/
theorem c9_steps_preserve_config (s : Step) (oracle : Nat → CmdBehavior) (w : World)
    (hs : s ∈ fab_steps) :
    ((s.run oracle w).1.ctx.kicad_path = w.ctx.kicad_path) ∧
    ((s.run oracle w).1.ctx.output = w.ctx.output) ∧
    ((s.run oracle w).1.ctx.pcb = w.ctx.pcb) ∧
    ((s.run oracle w).1.ctx.schema = w.ctx.schema) ∧
    ((s.run oracle w).1.ctx.project_base = w.ctx.project_base) := by
  have hc : configOf ((s.run oracle w).1) = configOf w := by
    simp only [fab_steps, List.mem_cons, List.not_mem_nil, or_false] at hs
    rcases hs with rfl | rfl | rfl | rfl | rfl | rfl
    · exact run_command_configOf _ _ _
    · exact run_command_configOf _ _ _
    · exact run_command_configOf _ _ _
    · exact run_command_configOf _ _ _
    · exact load_pos_fixups_configOf oracle w
    · exact generate_pos_configOf oracle w
  simpa [configOf, Prod.ext_iff] using hc

/-- Witness for C9: the fixup-loading step, run on a concrete world, keeps
all five configuration fields intact. -/
theorem c9_steps_preserve_config_witness :
    ((⟨"Load pick-and-place fixup mappings", load_pos_fixups⟩ : Step) ∈ fab_steps) ∧
    ((load_pos_fixups c8Oracle c6World).1.ctx.kicad_path = "kicad-cli") ∧
    ((load_pos_fixups c8Oracle c6World).1.ctx.output = "fab") ∧
    ((load_pos_fixups c8Oracle c6World).1.ctx.pcb = "b.kicad_pcb") ∧
    ((load_pos_fixups c8Oracle c6World).1.ctx.schema = "b.kicad_sch") ∧
    ((load_pos_fixups c8Oracle c6World).1.ctx.project_base = "b") := by
  have hmem : (⟨"Load pick-and-place fixup mappings", load_pos_fixups⟩ : Step) ∈ fab_steps := by
    simp [fab_steps]
  have h := c9_steps_preserve_config
    ⟨"Load pick-and-place fixup mappings", load_pos_fixups⟩ c8Oracle c6World hmem
  exact ⟨hmem, h.1, h.2.1, h.2.2.1, h.2.2.2.1, h.2.2.2.2⟩

/-! ## Claim C7 -/

/-- C7: the caller-facing behavior of `generate_fab` — (1) when the output
directory already exists and the force flag is off, the run stops with the
highlighted conflict title, its details line, and exit code 1; (2) when the
step pipeline body succeeds, a completion message is printed and the exit
code is 0; (3) when the body raises a `ScriptError`, its title is printed
highlighted, then its details, and the exit code is the error's own code;
(4) every `ScriptError` raised by `run_command` carries exit code 2, so any
external command failure exits with 2. -/
theorem c7_cli_error_reporting :
    (∀ (oracle : Nat → CmdBehavior) (args : CliArgs) (w0 : World),
      w0.dirs.contains args.output = true → args.force = false →
      generate_fab oracle args w0 =
        ⟨w0,
         [.styled ("\"" ++ args.output ++ "\" already exists."),
          .plain "Use --fore to remove and re-create, or --output to specify a different path"],
         .ok 1⟩) ∧
    (∀ (oracle : Nat → CmdBehavior) (args : CliArgs) (w0 w : World)
        (console : List ConsoleLine),
      generate_fab_body oracle args w0 = (w, console, .ok ()) →
      generate_fab oracle args w0 = ⟨w, console ++ [.plain "Done."], .ok 0⟩) ∧
    (∀ (oracle : Nat → CmdBehavior) (args : CliArgs) (w0 w : World)
        (console : List ConsoleLine) (se : ScriptError),
      generate_fab_body oracle args w0 = (w, console, .error (.scriptError se)) →
      generate_fab oracle args w0 =
        ⟨w, console ++ [.styled se.title, .plain se.details], .ok se.error_code⟩) ∧
    (∀ (beh : CmdBehavior) (cargs : List String) (w : World) (e : PyExc),
      (run_command beh cargs w).2 = .error e →
      e = .scriptError
        ⟨"Error executing command " ++ String.intercalate " " cargs, beh.stdout, 2⟩) := by
  refine ⟨?_, ?_, ?_, ?_⟩
  · intro oracle args w0 hdir hforce
    have hcond : (w0.dirs.contains args.output && !args.force) = true := by
      rw [hdir, hforce]
      rfl
    have hbody : generate_fab_body oracle args w0 =
        (w0, [], .error (.scriptError
          ⟨"\"" ++ args.output ++ "\" already exists.",
           "Use --fore to remove and re-create, or --output to specify a different path",
           1⟩)) := by
      simp only [generate_fab_body, hcond, if_true]
    unfold generate_fab
    rw [hbody]
    rfl
  · intro oracle args w0 w console h
    unfold generate_fab
    rw [h]
  · intro oracle args w0 w console se h
    unfold generate_fab
    rw [h]
  · intro beh cargs w e h
    by_cases hrc : beh.returncode = 0
    · rw [run_command_ok beh cargs w hrc] at h
      simp at h
    · rw [run_command_fail beh cargs w hrc] at h
      simpa [eq_comm] using h

/-- Arguments for the C7 witness: output directory `fab`, no force flag. -/
def c7Args : CliArgs := ⟨"proj", "", "", "fab", false, ""⟩

/-- World for the C7 witness: the `fab` directory already exists. -/
def c7World : World := ⟨⟨"", "", "", "", "", []⟩, [], ["fab"], []⟩

/-- Oracle for the C7 witness (never reached). -/
def c7Oracle : Nat → CmdBehavior := fun _ => ⟨0, "", []⟩

/-- Witness for C7: a pre-existing output directory without the force flag
prints the highlighted conflict title plus details and exits with code 1. -/
theorem c7_cli_error_reporting_witness :
    (c7World.dirs.contains c7Args.output = true) ∧
    (c7Args.force = false) ∧
    generate_fab c7Oracle c7Args c7World =
      ⟨c7World,
       [.styled "\"fab\" already exists.",
        .plain "Use --fore to remove and re-create, or --output to specify a different path"],
       .ok 1⟩ := by
  have h := c7_cli_error_reporting.1 c7Oracle c7Args c7World (by rfl) (by rfl)
  exact ⟨by rfl, by rfl, h⟩

/-! ## Claim C10 -/

/-- C10: `generate_fab`'s handler catches only `ScriptError` (in the source
the class extends `BaseException` and the sole `except` clause names
exactly it), so any other exception raised inside a step — a failed
fixup-map lookup, a temporary-file removal on a missing file, the header
discard on an empty export — escapes `generate_fab` unhandled: no error
title or details line is printed and no exit code is produced. -/
theorem c10_non_scripterror_escapes (oracle : Nat → CmdBehavior) (args : CliArgs)
    (w0 w : World) (console : List ConsoleLine) (e : PyExc)
    (hbody : generate_fab_body oracle args w0 = (w, console, .error e))
    (hnot : ∀ se : ScriptError, e ≠ .scriptError se) :
    generate_fab oracle args w0 = ⟨w, console, .error e⟩ := by
  unfold generate_fab
  rw [hbody]
  cases e with
  | scriptError se => exact absurd rfl (hnot se)
  | keyError k => rfl
  | indexError => rfl
  | stopIteration => rfl
  | fileNotFoundError n => rfl
  | fileExistsError n => rfl

/-- Arguments for the C10 witness. -/
def c10Args : CliArgs := ⟨"proj", "", "", "fab", false, ""⟩

/-- World for the C10 witness: empty filesystem, no directories. -/
def c10World : World := ⟨⟨"", "", "", "", "", []⟩, [], [], []⟩

/-- Oracle for the C10 witness: every command succeeds; the fixup export
writes a header-only table (no fixup rows) and the position export writes a
row whose reference `C2` therefore has no entry in the fixups map, so the
reconciler's dict-subscript lookup raises `KeyError('C2')`. -/
def c10Oracle : Nat → CmdBehavior := fun n =>
  if n = 4 then ⟨0, "", [("fab/pos-fixups.csv", .csv [["Reference", "PosRotAdjust"]])]⟩
  else if n = 5 then ⟨0, "", [("fab/pre-fixup-pos.pos",
    .csv [["Ref", "Val", "Package", "PosX", "PosY", "Rot", "Side"],
          ["C2", "100nF", "0603", "5.0", "5.0", "180", "top"]])]⟩
  else ⟨0, "", []⟩

/-- Witness for C10: the `KeyError` from the missing fixup lookup escapes
`generate_fab` — the outcome is the uncaught exception, and the console
holds only the initial progress line (no styled error title, no details,
no exit code). -/
theorem c10_non_scripterror_escapes_witness :
    generate_fab c10Oracle c10Args c10World =
      ⟨(generate_fab_body c10Oracle c10Args c10World).1,
       [.plain "Using kicad-cli to generate fabraction outputs for PCB proj/proj.kicad_pcb and schema proj/proj.kicad_sch"],
       .error (.keyError "C2")⟩ := by
  have h := c10_non_scripterror_escapes c10Oracle c10Args c10World
    (generate_fab_body c10Oracle c10Args c10World).1
    [.plain "Using kicad-cli to generate fabraction outputs for PCB proj/proj.kicad_pcb and schema proj/proj.kicad_sch"]
    (.keyError "C2")
    (by rfl)
    (by intro se hse; cases hse)
  exact h
